import Mathlib

/-! ## image-pull-secrets-injector: the image reference splitter and the Pod mutator

A shallow embedding of `hook/mutate_pod.go` (`findImagePullSecrets`,
`matchContainerImageDomain`, `PodMutator.defaultingImagePullSecretes`) and of the
image reference splitter `splitDockerDomain` that it calls.
-/

namespace Hook

/-! ## Image reference splitter

Go strings are Lean strings here; the characters the splitter looks for (`/`, `.`, `:`) are
ASCII, so cutting at a character is cutting at the byte. -/

/-- The default public registry domain (the value of the `domain` flag in `main.go`). -/
def defaultDomain : String := "docker.io"

/-- The default library namespace put in front of single-segment image names. -/
def officialRepoName : String := "library"

/-- Cut a reference at its first `/`: `some (head, tail)` with `head` the characters before
the first `/` and `tail` the characters after it, `none` when there is no `/`. -/
def cutSlash : List Char → Option (List Char × List Char)
  | [] => none
  | c :: cs =>
    if c = '/' then some ([], cs)
    else
      match cutSlash cs with
      | none => none
      | some (h, t) => some (c :: h, t)

/-- The domain test on a candidate head: it contains a `.` or a `:`, or it is the literal
loopback host `localhost`. -/
def isDomainHead (head : String) : Bool :=
  decide ('.' ∈ head.data) || decide (':' ∈ head.data) || decide (head = "localhost")

/-- Modelled from the spec: `splitDockerDomain` is called by `matchContainerImageDomain`
and tested by `hook/normalize_test.go`, but its file (`hook/normalize.go`) is not among the
sources. The model follows section 4.1 of the specification: the reference is cut at its
first `/`; the head is the domain only when it passes the domain test, otherwise the domain
is the default registry and the remainder is the whole reference; a single-segment remainder
under the default registry gets the default library namespace in front. The last rule is
applied to an explicit `docker.io` head as well, as the round-trip property of section 8 and
the test case `docker hub domain` (`docker.io/nginx:latest` gives `library/nginx:latest`)
require, and to no other domain (test case `ecr domain`). -/
def splitDockerDomain (name : String) : String × String :=
  let dr : String × String :=
    match cutSlash name.data with
    | none => (defaultDomain, name)
    | some (h, t) =>
      if isDomainHead ⟨h⟩ then (⟨h⟩, ⟨t⟩) else (defaultDomain, name)
  if dr.1 = defaultDomain ∧ '/' ∉ dr.2.data then
    (dr.1, officialRepoName ++ "/" ++ dr.2)
  else dr

/-! ## Data model (the fields of the Kubernetes objects the mutator reads or writes) -/

/-- The object metadata embedded in every object (`metav1.ObjectMeta`). -/
structure ObjectMeta where
  Name : String
  Namespace : String
  ResourceVersion : String
  deriving DecidableEq, Repr

/-- A reference to an object of the same namespace (`corev1.LocalObjectReference`). -/
structure LocalObjectReference where
  Name : String
  deriving DecidableEq, Repr

/-- A container of a Pod (`corev1.Container`). -/
structure Container where
  Name : String
  Image : String
  deriving DecidableEq, Repr

/-- The Pod spec (`corev1.PodSpec`). -/
structure PodSpec where
  Containers : List Container
  ImagePullSecrets : List LocalObjectReference
  deriving DecidableEq, Repr

/-- A Pod (`corev1.Pod`); `ObjectMeta` is embedded as in Go. -/
structure Pod extends ObjectMeta where
  Spec : PodSpec
  deriving DecidableEq, Repr

/-- A Secret (`corev1.Secret`); `ObjectMeta` is embedded as in Go. -/
structure Secret extends ObjectMeta where
  SecretType : String
  Data : List (String × List Nat)
  deriving DecidableEq, Repr

/-- The key of a namespaced object (`types.NamespacedName`). -/
structure NamespacedName where
  Namespace : String
  Name : String
  deriving DecidableEq, Repr

/-- A non-nil Go `error` returned by the object store, with the status reason that
`errors.ReasonForError` reads from it. A nil error is `none : Option Error`. -/
structure Error where
  Reason : String
  Message : String
  deriving DecidableEq, Repr

/-- The library predicate `errors.IsNotFound`: the reason of the error is `NotFound`;
false on a nil error. -/
def IsNotFound : Option Error → Bool
  | none => false
  | some e => e.Reason == "NotFound"

/-- The library predicate `errors.IsAlreadyExists`; false on a nil error. -/
def IsAlreadyExists : Option Error → Bool
  | none => false
  | some e => e.Reason == "AlreadyExists"

/-- The configuration of the webhook handler (`PodMutator`); the injected client is the
interpreter of the store calls below. -/
structure PodMutator where
  Domain : String
  SecretName : String
  SecretNamespace : String
  deriving DecidableEq, Repr

/-! ## Store calls -/

/-- A computation that calls the object store: each node is one call of `client.Get` or
`client.Create`, continued with the answer of the store. `Get` answers with the error or
with the object read. -/
inductive Prog (α : Type) where
  | ret : α → Prog α
  | get : NamespacedName → (Except Error Secret → Prog α) → Prog α
  | create : Secret → (Option Error → Prog α) → Prog α

/-- An object-store client over a store state `σ`: every call answers and yields the next
state of the store. -/
structure Client (σ : Type) where
  Get : σ → NamespacedName → Except Error Secret × σ
  Create : σ → Secret → Option Error × σ

/-- One store call as it was issued and answered. -/
inductive Call where
  | get : NamespacedName → Except Error Secret → Call
  | create : Secret → Option Error → Call

/-- The error a store call answered with, if any. -/
def Call.err : Call → Option Error
  | .get _ (.error e) => some e
  | .get _ (.ok _) => none
  | .create _ e => e

/-- Run a computation against a client from a store state: the result, the final store
state and the store calls issued, in order. -/
def Prog.run {σ α : Type} (c : Client σ) : Prog α → σ → α × σ × List Call
  | .ret a, s => (a, s, [])
  | .get key k, s =>
    let r := c.Get s key
    let out := (k r.1).run c r.2
    (out.1, out.2.1, Call.get key r.1 :: out.2.2)
  | .create obj k, s =>
    let r := c.Create s obj
    let out := (k r.1).run c r.2
    (out.1, out.2.1, Call.create obj r.1 :: out.2.2)

/-- Perform the next store call of a computation, if there is one: the rest of the
computation, the next store state and the call performed. -/
def Prog.step {σ α : Type} (c : Client σ) : Prog α → σ → Prog α × σ × List Call
  | .ret a, s => (.ret a, s, [])
  | .get key k, s => let r := c.Get s key; (k r.1, r.2, [Call.get key r.1])
  | .create obj k, s => let r := c.Create s obj; (k r.1, r.2, [Call.create obj r.1])

/-- The result of a computation that has finished. -/
def Prog.result? {α : Type} : Prog α → Option α
  | .ret a => some a
  | _ => none

/-- Two computations running concurrently against one store: the schedule says, call by
call, which of the two performs its next store call (`true` for the first). The result is
what is left of the two computations, the final store state, and the store calls in the
order they were performed, each with the computation that issued it. -/
def race {σ α β : Type} (c : Client σ) :
    List Bool → Prog α → Prog β → σ → Prog α × Prog β × σ × List (Bool × Call)
  | [], p, q, s => (p, q, s, [])
  | true :: bs, p, q, s =>
    let r := p.step c s
    let out := race c bs r.1 q r.2.1
    (out.1, out.2.1, out.2.2.1, r.2.2.map (fun call => (true, call)) ++ out.2.2.2)
  | false :: bs, p, q, s =>
    let r := q.step c s
    let out := race c bs p r.1 r.2.1
    (out.1, out.2.1, out.2.2.1, r.2.2.map (fun call => (false, call)) ++ out.2.2.2)

/-! ## The mutator (`hook/mutate_pod.go`) -/

/-- The Pod already references the secret. -/
def findImagePullSecrets (secretName : String) (pod : Pod) : Bool :=
  pod.Spec.ImagePullSecrets.any fun objRef => decide (secretName = objRef.Name)

/-- Some container image of the Pod splits to the given domain. -/
def matchContainerImageDomain (domain : String) (pod : Pod) : Bool :=
  pod.Spec.Containers.any fun container =>
    decide (domain = (splitDockerDomain container.Image).1)

/-- The Pod after `append(pod.Spec.ImagePullSecrets, LocalObjectReference(Name))`. -/
def appendImagePullSecret (secretName : String) (pod : Pod) : Pod :=
  { pod with Spec := { pod.Spec with
      ImagePullSecrets := pod.Spec.ImagePullSecrets ++ [{ Name := secretName }] } }

/-- The method `PodMutator.defaultingImagePullSecretes`: the returned error (nil is `none`)
and the Pod as the method leaves it. -/
def defaultingImagePullSecretes (m : PodMutator) (pod : Pod) : Prog (Option Error × Pod) :=
  if findImagePullSecrets m.SecretName pod then .ret (none, pod)
  else if !matchContainerImageDomain m.Domain pod then .ret (none, pod)
  else
    .get { Namespace := pod.Namespace, Name := m.SecretName } fun got =>
      let err : Option Error := match got with
        | .error e => some e
        | .ok _ => none
      if IsNotFound err then
        .get { Namespace := m.SecretNamespace, Name := m.SecretName } fun got2 =>
          match got2 with
          | .error e2 => .ret (some e2, pod)
          | .ok originalSecret =>
            let newSecret : Secret :=
              { originalSecret with ResourceVersion := "", Namespace := pod.Namespace }
            .create newSecret fun cerr =>
              match cerr with
              | some e3 => .ret (some e3, pod)
              | none => .ret (none, appendImagePullSecret m.SecretName pod)
      else if err ≠ none then .ret (err, pod)
      else .ret (none, appendImagePullSecret m.SecretName pod)

/-! ## An in-memory object store, for concrete runs -/

/-- The answer of the store for an object that does not exist. -/
def errNotFound : Error := { Reason := "NotFound", Message := "not found" }

/-- The answer of the store to the creation of an object that exists. -/
def errAlreadyExists : Error := { Reason := "AlreadyExists", Message := "already exists" }

/-- The answer of the store to the creation of an object with a resource version. -/
def errBadRequest : Error :=
  { Reason := "BadRequest", Message := "resourceVersion should not be set on objects to be created" }

/-- Does the secret have this key. -/
def Secret.hasKey (key : NamespacedName) (s : Secret) : Bool :=
  decide (s.Namespace = key.Namespace) && decide (s.Name = key.Name)

/-- An in-memory store of secrets, unique per namespace and name: `Get` finds the secret
of a key or answers `NotFound`; `Create` refuses an object that carries a resource version,
answers `AlreadyExists` for a key that is taken, and otherwise stores the object under a
resource version of its own (the number of objects stored so far, in unary). -/
def memClient : Client (List Secret) where
  Get st key :=
    match st.find? (Secret.hasKey key) with
    | some s => (.ok s, st)
    | none => (.error errNotFound, st)
  Create st obj :=
    if obj.ResourceVersion ≠ "" then (some errBadRequest, st)
    else if st.any (Secret.hasKey { Namespace := obj.Namespace, Name := obj.Name }) then
      (some errAlreadyExists, st)
    else
      (none, st ++ [{ obj with ResourceVersion := String.mk (List.replicate (st.length + 1) '1') }])

/-- The handler configuration of the test suite (`suite_test.go`). -/
def testMutator : PodMutator :=
  { Domain := "docker.io", SecretName := "image-pull-secret", SecretNamespace := "default" }

/-- The secret the test suite creates in the default namespace (`newSecret`), as stored. -/
def testSecret : Secret :=
  { Name := "image-pull-secret", Namespace := "default", ResourceVersion := "1",
    SecretType := "kubernetes.io/dockerconfigjson", Data := [(".dockerconfigjson", [123, 125])] }

/-- The Pod of the test suite (`newPod`) with a name, a namespace and an image. -/
def testPod (name ns image : String) : Pod :=
  { Name := name, Namespace := ns, ResourceVersion := "",
    Spec := { Containers := [{ Name := "nginx", Image := image }], ImagePullSecrets := [] } }

/-- The in-memory store with a concurrent writer: another admission request creates
`other` in the store right after each `Get` of ours is answered. -/
def contendedClient (other : Secret) : Client (List Secret) where
  Get st key :=
    let r := memClient.Get st key
    (r.1, (memClient.Create r.2 other).2)
  Create := memClient.Create

/-- The answer of a store that denies the caller access to an object. -/
def errForbidden : Error := { Reason := "Forbidden", Message := "secrets is forbidden" }

/-- The in-memory store behind a read path that fails: every `Get` is answered with the
given error, whatever the store holds. -/
def refusingClient (e : Error) : Client (List Secret) where
  Get st _ := (.error e, st)
  Create := memClient.Create

/-- The copy of the test secret that the mutator creates in a namespace. -/
def testCopy (ns : String) : Secret :=
  { testSecret with ResourceVersion := "", Namespace := ns }

/-- The copy of the test secret as the store holds it once created next to the original. -/
def storedCopy (ns : String) : Secret :=
  { testSecret with ResourceVersion := "11", Namespace := ns }

theorem cutSlash_eq_none (l : List Char) : cutSlash l = none ↔ '/' ∉ l := by
  induction l with
  | nil => simp [cutSlash]
  | cons c cs ih =>
    by_cases hc : c = '/'
    · simp [cutSlash, hc]
    · have hc2 : ¬ '/' = c := fun h => hc h.symm
      cases hcs : cutSlash cs with
      | none => simp [cutSlash, hc, hc2, hcs, ih.mp hcs]
      | some p =>
        have : '/' ∈ cs := by
          by_contra hn
          rw [ih.mpr hn] at hcs
          cases hcs
        simp [cutSlash, hc, hcs, this]

theorem cutSlash_append (h t : List Char) (hh : '/' ∉ h) :
    cutSlash (h ++ '/' :: t) = some (h, t) := by
  induction h with
  | nil => simp [cutSlash]
  | cons c cs ih =>
    have hc : c ≠ '/' := fun e => hh (by simp [e])
    have hcs : '/' ∉ cs := fun e => hh (by simp [e])
    simp [cutSlash, hc, ih hcs]

theorem cutSlash_some (l h t : List Char) (hl : cutSlash l = some (h, t)) :
    l = h ++ '/' :: t ∧ '/' ∉ h := by
  induction l generalizing h with
  | nil => simp [cutSlash] at hl
  | cons c cs ih =>
    by_cases hc : c = '/'
    · simp [cutSlash, hc] at hl
      obtain ⟨rfl, rfl⟩ := hl
      simp [hc]
    · cases hcs : cutSlash cs with
      | none => simp [cutSlash, hc, hcs] at hl
      | some p =>
        obtain ⟨h1, t1⟩ := p
        simp [cutSlash, hc, hcs] at hl
        obtain ⟨rfl, rfl⟩ := hl
        obtain ⟨e, hn⟩ := ih h1 hcs
        refine ⟨by simp [e], ?_⟩
        intro hm
        rcases List.mem_cons.mp hm with hm | hm
        · exact hc hm.symm
        · exact hn hm

theorem data_slash_append (head tail : String) :
    (head ++ "/" ++ tail).data = head.data ++ '/' :: tail.data := by
  simp [String.data_append]

theorem slash_mem_library (s : String) : '/' ∈ (officialRepoName ++ "/" ++ s).data := by
  simp [data_slash_append]

theorem defaultDomain_isDomainHead : isDomainHead defaultDomain = true := by decide

theorem defaultDomain_no_slash : '/' ∉ defaultDomain.data := by decide

theorem split_no_slash (name : String) (h : '/' ∉ name.data) :
    splitDockerDomain name = (defaultDomain, officialRepoName ++ "/" ++ name) := by
  simp [splitDockerDomain, (cutSlash_eq_none _).mpr h, h]

theorem split_unqualified (head tail : String) (h : '/' ∉ head.data)
    (hq : isDomainHead head = false) :
    splitDockerDomain (head ++ "/" ++ tail) = (defaultDomain, head ++ "/" ++ tail) := by
  have hc := cutSlash_append head.data tail.data h
  rw [← data_slash_append] at hc
  have hm : '/' ∈ (head ++ "/" ++ tail).data := by simp [data_slash_append]
  simp only [splitDockerDomain, hc, hq]
  simp [hm]

theorem split_qualified (head tail : String) (h : '/' ∉ head.data)
    (hq : isDomainHead head = true) :
    splitDockerDomain (head ++ "/" ++ tail)
      = (head, if head = defaultDomain ∧ '/' ∉ tail.data
               then officialRepoName ++ "/" ++ tail else tail) := by
  have hc := cutSlash_append head.data tail.data h
  rw [← data_slash_append] at hc
  simp only [splitDockerDomain, hc, hq]
  by_cases hd : head = defaultDomain ∧ '/' ∉ tail.data
  · simp [hd]
  · simp [hd]

theorem string_of_cut (name : String) (h t : List Char) (hl : cutSlash name.data = some (h, t)) :
    name = (String.mk h) ++ "/" ++ (String.mk t) ∧ '/' ∉ h := by
  obtain ⟨e, hn⟩ := cutSlash_some _ _ _ hl
  refine ⟨String.ext ?_, hn⟩
  rw [data_slash_append]
  exact e

theorem split_shape (r : String) :
    '/' ∉ (splitDockerDomain r).1.data ∧ isDomainHead (splitDockerDomain r).1 = true ∧
      ((splitDockerDomain r).1 = defaultDomain → '/' ∈ (splitDockerDomain r).2.data) := by
  cases hc : cutSlash r.data with
  | none =>
    have hn := (cutSlash_eq_none _).mp hc
    rw [split_no_slash r hn]
    exact ⟨defaultDomain_no_slash, defaultDomain_isDomainHead, fun _ => slash_mem_library r⟩
  | some p =>
    obtain ⟨h, t⟩ := p
    obtain ⟨e, hn⟩ := string_of_cut r h t hc
    have hn2 : '/' ∉ (String.mk h).data := hn
    cases hq : isDomainHead (String.mk h) with
    | false =>
      rw [e, split_unqualified _ _ hn2 hq]
      refine ⟨defaultDomain_no_slash, defaultDomain_isDomainHead, fun _ => ?_⟩
      simp [data_slash_append]
    | true =>
      rw [e, split_qualified _ _ hn2 hq]
      refine ⟨hn2, hq, fun hd => ?_⟩
      by_cases ht : '/' ∈ t
      · have : ¬ (String.mk h = defaultDomain ∧ '/' ∉ (String.mk t).data) := fun c => c.2 ht
        simp only [this, if_false]
        exact ht
      · have : (String.mk h = defaultDomain ∧ '/' ∉ (String.mk t).data) := ⟨hd, ht⟩
        simp only [this, and_self, if_true]
        exact slash_mem_library _

/-- Claim C7, as amended (splitter, qualified head). For every reference `head/tail` whose
head has no `/` and contains a `.` or a `:` or is `localhost`, the domain is the head, and the
remainder is the tail unmodified, except under the head `docker.io` with a tail without `/`,
where the remainder is `library/` followed by the tail. -/
theorem C7_qualified_head (head tail : String) (hslash : '/' ∉ head.data)
    (hq : '.' ∈ head.data ∨ ':' ∈ head.data ∨ head = "localhost") :
    splitDockerDomain (head ++ "/" ++ tail)
      = (head, if head = "docker.io" ∧ '/' ∉ tail.data then "library/" ++ tail else tail) := by
  have hq2 : isDomainHead head = true := by
    simp only [isDomainHead, Bool.or_eq_true, decide_eq_true_eq]
    tauto
  exact split_qualified head tail hslash hq2

/-- The test case `gcr domain`. -/
theorem C7_qualified_head_witness :
    '/' ∉ "k8s.gcr.io".data ∧ '.' ∈ "k8s.gcr.io".data ∧
      splitDockerDomain "k8s.gcr.io/autoscaling/cluster-autoscaler:v1.17.4"
        = ("k8s.gcr.io", "autoscaling/cluster-autoscaler:v1.17.4") :=
  ⟨by decide, by decide,
    C7_qualified_head "k8s.gcr.io" "autoscaling/cluster-autoscaler:v1.17.4" (by decide)
      (Or.inl (by decide))⟩

/-- Claim C7 as stated fails on the test case `docker hub domain`: the head `docker.io` of
`docker.io/nginx:latest` has no `/` and contains a `.`, and the remainder is
`library/nginx:latest`, not the tail `nginx:latest`. -/
theorem C7_counterexample :
    '/' ∉ "docker.io".data ∧ '.' ∈ "docker.io".data ∧
      splitDockerDomain ("docker.io" ++ "/" ++ "nginx:latest") = ("docker.io", "library/nginx:latest") ∧
      ¬ (splitDockerDomain ("docker.io" ++ "/" ++ "nginx:latest")).2 = "nginx:latest" := by
  decide

/-- Claim C8 (splitter, default domain). For every reference that has no `/`, or whose head
before the first `/` contains neither `.` nor `:` and is not `localhost`, the domain is
`docker.io`. -/
theorem C8_default_domain (name : String)
    (h : '/' ∉ name.data ∨
      ∃ head tail : String, name = head ++ "/" ++ tail ∧ '/' ∉ head.data ∧
        '.' ∉ head.data ∧ ':' ∉ head.data ∧ head ≠ "localhost") :
    (splitDockerDomain name).1 = "docker.io" := by
  rcases h with h | ⟨head, tail, rfl, hs, h1, h2, h3⟩
  · rw [split_no_slash name h]; rfl
  · have hq : isDomainHead head = false := by simp [isDomainHead, h1, h2, h3]
    rw [split_unqualified head tail hs hq]; rfl

/-- A multi-segment reference without a qualifying head, and the empty reference. -/
theorem C8_default_domain_witness :
    (splitDockerDomain "org/app:1.0").1 = "docker.io" ∧ (splitDockerDomain "").1 = "docker.io" :=
  ⟨C8_default_domain "org/app:1.0" (Or.inr ⟨"org", "app:1.0", by decide, by decide, by decide,
      by decide, by decide⟩),
    C8_default_domain "" (Or.inl (by decide))⟩

/-- Claim C9 (splitter, implied library namespace). For every image name `n` without `/`,
both `n` and `docker.io/n` split to the domain `docker.io` and the remainder `library/n`. -/
theorem C9_library (n : String) (h : '/' ∉ n.data) :
    splitDockerDomain n = ("docker.io", "library/" ++ n) ∧
      splitDockerDomain ("docker.io/" ++ n) = ("docker.io", "library/" ++ n) := by
  refine ⟨split_no_slash n h, ?_⟩
  have := split_qualified defaultDomain n defaultDomain_no_slash defaultDomain_isDomainHead
  simp only [h, not_false_eq_true, and_self, if_true] at this
  exact this

/-- The test cases `docker hub domain omitting domain` and `docker hub domain`. -/
theorem C9_library_witness :
    (splitDockerDomain "nginx" = ("docker.io", "library/nginx") ∧
      splitDockerDomain "docker.io/nginx" = ("docker.io", "library/nginx")) ∧
    (splitDockerDomain "nginx:latest" = ("docker.io", "library/nginx:latest") ∧
      splitDockerDomain "docker.io/nginx:latest" = ("docker.io", "library/nginx:latest")) :=
  ⟨C9_library "nginx" (by decide), C9_library "nginx:latest" (by decide)⟩

/-- Claim C10 (splitter reconstruction). For every reference `r` that splits to the domain `d`
and the remainder `rem`, the reference `d/rem` splits to `d` and `rem` again. -/
theorem C10_resplit (r : String) :
    splitDockerDomain ((splitDockerDomain r).1 ++ "/" ++ (splitDockerDomain r).2)
      = splitDockerDomain r := by
  obtain ⟨h1, h2, h3⟩ := split_shape r
  rw [split_qualified _ _ h1 h2]
  have : ¬ ((splitDockerDomain r).1 = defaultDomain ∧ '/' ∉ (splitDockerDomain r).2.data) :=
    fun c => c.2 (h3 c.1)
  simp only [this, if_false]

/-! ## The mutator -/

theorem find_eq_false (n : String) (pod : Pod)
    (h : ∀ r ∈ pod.Spec.ImagePullSecrets, r.Name ≠ n) : findImagePullSecrets n pod = false := by
  simp only [findImagePullSecrets, List.any_eq_false, decide_eq_true_eq]
  intro r hr e
  exact h r hr e.symm

theorem match_eq_true (d : String) (pod : Pod)
    (h : ∃ ct ∈ pod.Spec.Containers, (splitDockerDomain ct.Image).1 = d) :
    matchContainerImageDomain d pod = true := by
  obtain ⟨ct, hct, e⟩ := h
  simp only [matchContainerImageDomain, List.any_eq_true, decide_eq_true_eq]
  exact ⟨ct, hct, e.symm⟩

theorem match_eq_false (d : String) (pod : Pod)
    (h : ∀ ct ∈ pod.Spec.Containers, (splitDockerDomain ct.Image).1 ≠ d) :
    matchContainerImageDomain d pod = false := by
  simp only [matchContainerImageDomain, List.any_eq_false, decide_eq_true_eq]
  intro ct hct e
  exact h ct hct e.symm

theorem find_false_forall (n : String) (pod : Pod) (h : findImagePullSecrets n pod = false) :
    ∀ r ∈ pod.Spec.ImagePullSecrets, r.Name ≠ n := by
  simp only [findImagePullSecrets, List.any_eq_false, decide_eq_true_eq] at h
  intro r hr e
  exact h r hr e.symm

theorem match_true_exists (d : String) (pod : Pod) (h : matchContainerImageDomain d pod = true) :
    ∃ ct ∈ pod.Spec.Containers, (splitDockerDomain ct.Image).1 = d := by
  simp only [matchContainerImageDomain, List.any_eq_true, decide_eq_true_eq] at h
  obtain ⟨ct, hct, e⟩ := h
  exact ⟨ct, hct, e.symm⟩

theorem find_append (n : String) (pod : Pod) :
    findImagePullSecrets n (appendImagePullSecret n pod) = true := by
  simp [findImagePullSecrets, appendImagePullSecret]

theorem run_of_find {σ : Type} (c : Client σ) (m : PodMutator) (pod : Pod) (s : σ)
    (h : findImagePullSecrets m.SecretName pod = true) :
    (defaultingImagePullSecretes m pod).run c s = ((none, pod), s, []) := by
  simp [defaultingImagePullSecretes, h, Prog.run]

theorem run_of_no_match {σ : Type} (c : Client σ) (m : PodMutator) (pod : Pod) (s : σ)
    (h : matchContainerImageDomain m.Domain pod = false) :
    (defaultingImagePullSecretes m pod).run c s = ((none, pod), s, []) := by
  by_cases hf : findImagePullSecrets m.SecretName pod = true
  · exact run_of_find c m pod s hf
  · simp [defaultingImagePullSecretes, hf, h, Prog.run]


/-- Claim C1 (provisioning). A Pod that does not reference the secret and has a container of the
configured domain, against a store where the target `Get` reports `NotFound`, the canonical
`Get` returns `S` and `Create` succeeds: the method returns nil, the store calls are the two
`Get`s followed by exactly one `Create` of `S` with `ResourceVersion` cleared and `Namespace`
set to the namespace of the Pod, and the Pod has the reference appended to its list. -/
theorem C1_provisioning {σ : Type} (c : Client σ) (m : PodMutator) (pod : Pod)
    (s s1 s2 s3 : σ) (e : Error) (S : Secret)
    (hfind : ∀ r ∈ pod.Spec.ImagePullSecrets, r.Name ≠ m.SecretName)
    (hmatch : ∃ ct ∈ pod.Spec.Containers, (splitDockerDomain ct.Image).1 = m.Domain)
    (hget1 : c.Get s { Namespace := pod.Namespace, Name := m.SecretName } = (.error e, s1))
    (hnf : IsNotFound (some e) = true)
    (hget2 : c.Get s1 { Namespace := m.SecretNamespace, Name := m.SecretName } = (.ok S, s2))
    (hcreate : c.Create s2 { S with ResourceVersion := "", Namespace := pod.Namespace }
      = (none, s3)) :
    (defaultingImagePullSecretes m pod).run c s
      = ((none, { pod with Spec := { pod.Spec with
            ImagePullSecrets := pod.Spec.ImagePullSecrets ++ [{ Name := m.SecretName }] } }),
         s3,
         [Call.get { Namespace := pod.Namespace, Name := m.SecretName } (.error e),
          Call.get { Namespace := m.SecretNamespace, Name := m.SecretName } (.ok S),
          Call.create { S with ResourceVersion := "", Namespace := pod.Namespace } none]) := by
  have hf := find_eq_false _ _ hfind
  have hm := match_eq_true _ _ hmatch
  simp [defaultingImagePullSecretes, hf, hm, Prog.run, hget1, hnf, hget2, hcreate,
    appendImagePullSecret]

/-- The test `should set imagePullSecrets for different namespace`: a Pod of namespace
`integration-test`, the secret present in `default` only. -/
theorem C1_provisioning_witness :
    (defaultingImagePullSecretes testMutator
        (testPod "docker-io-image-ns" "integration-test" "nginx:latest")).run memClient
        [testSecret]
      = ((none, { testPod "docker-io-image-ns" "integration-test" "nginx:latest" with
            Spec := { Containers := [{ Name := "nginx", Image := "nginx:latest" }],
                      ImagePullSecrets := [{ Name := "image-pull-secret" }] } }),
         [testSecret, storedCopy "integration-test"],
         [Call.get { Namespace := "integration-test", Name := "image-pull-secret" }
            (.error errNotFound),
          Call.get { Namespace := "default", Name := "image-pull-secret" } (.ok testSecret),
          Call.create (testCopy "integration-test") none]) :=
  C1_provisioning memClient testMutator
    (testPod "docker-io-image-ns" "integration-test" "nginx:latest")
    [testSecret] [testSecret] [testSecret]
    [testSecret, storedCopy "integration-test"]
    errNotFound testSecret (by decide) (by decide) rfl (by decide) rfl rfl

/-- Claim C2 (reuse). A Pod that does not reference the secret and has a container of the
configured domain, against a store where the target `Get` succeeds: the method returns nil,
that `Get` is its only store call (no `Create`, no second `Get`), and the Pod only has the
reference appended to the end of its list. -/
theorem C2_reuse {σ : Type} (c : Client σ) (m : PodMutator) (pod : Pod)
    (s s1 : σ) (T : Secret)
    (hfind : ∀ r ∈ pod.Spec.ImagePullSecrets, r.Name ≠ m.SecretName)
    (hmatch : ∃ ct ∈ pod.Spec.Containers, (splitDockerDomain ct.Image).1 = m.Domain)
    (hget1 : c.Get s { Namespace := pod.Namespace, Name := m.SecretName } = (.ok T, s1)) :
    (defaultingImagePullSecretes m pod).run c s
      = ((none, { pod with Spec := { pod.Spec with
            ImagePullSecrets := pod.Spec.ImagePullSecrets ++ [{ Name := m.SecretName }] } }),
         s1,
         [Call.get { Namespace := pod.Namespace, Name := m.SecretName } (.ok T)]) := by
  have hf := find_eq_false _ _ hfind
  have hm := match_eq_true _ _ hmatch
  simp [defaultingImagePullSecretes, hf, hm, Prog.run, hget1, IsNotFound,
    appendImagePullSecret]

/-- The test `should set imagePullSecrets`: image `nginx:latest`, domain `docker.io`, the
secret present in the namespace of the Pod; the store is left as it was. -/
theorem C2_reuse_witness :
    (defaultingImagePullSecretes testMutator
        (testPod "docker-io-image" "default" "nginx:latest")).run memClient [testSecret]
      = ((none, { testPod "docker-io-image" "default" "nginx:latest" with
            Spec := { Containers := [{ Name := "nginx", Image := "nginx:latest" }],
                      ImagePullSecrets := [{ Name := "image-pull-secret" }] } }),
         [testSecret],
         [Call.get { Namespace := "default", Name := "image-pull-secret" } (.ok testSecret)]) :=
  C2_reuse memClient testMutator (testPod "docker-io-image" "default" "nginx:latest")
    [testSecret] [testSecret] testSecret (by decide) (by decide) rfl

/-- Claim C3 (no-op on unmatched domain). When no container image of the Pod splits to a domain
equal to the configured one, the method returns nil, makes no store call and leaves the
whole Pod, and the store, unchanged. -/
theorem C3_noop_unmatched {σ : Type} (c : Client σ) (m : PodMutator) (pod : Pod) (s : σ)
    (h : ∀ ct ∈ pod.Spec.Containers, (splitDockerDomain ct.Image).1 ≠ m.Domain) :
    (defaultingImagePullSecretes m pod).run c s = ((none, pod), s, []) :=
  run_of_no_match c m pod s (match_eq_false _ _ h)

/-- The test `should not set imagePullSecrets for unmatched domain`. -/
theorem C3_noop_unmatched_witness :
    (∀ ct ∈ (testPod "k8s-gcr-io-image" "default"
        "k8s.gcr.io/autoscaling/cluster-autoscaler:v1.17.4").Spec.Containers,
        (splitDockerDomain ct.Image).1 ≠ "docker.io") ∧
    (defaultingImagePullSecretes testMutator (testPod "k8s-gcr-io-image" "default"
        "k8s.gcr.io/autoscaling/cluster-autoscaler:v1.17.4")).run memClient [testSecret]
      = ((none, testPod "k8s-gcr-io-image" "default"
            "k8s.gcr.io/autoscaling/cluster-autoscaler:v1.17.4"), [testSecret], []) :=
  ⟨by decide,
   C3_noop_unmatched memClient testMutator (testPod "k8s-gcr-io-image" "default"
      "k8s.gcr.io/autoscaling/cluster-autoscaler:v1.17.4") [testSecret] (by decide)⟩

theorem success_cases {σ : Type} (c : Client σ) (m : PodMutator) (pod pod1 : Pod)
    (s s1 : σ) (calls : List Call)
    (h : (defaultingImagePullSecretes m pod).run c s = ((none, pod1), s1, calls)) :
    (findImagePullSecrets m.SecretName pod = true ∧ pod1 = pod) ∨
    (findImagePullSecrets m.SecretName pod = false ∧
      matchContainerImageDomain m.Domain pod = false ∧ pod1 = pod) ∨
    (findImagePullSecrets m.SecretName pod = false ∧
      matchContainerImageDomain m.Domain pod = true ∧
      pod1 = appendImagePullSecret m.SecretName pod) := by
  cases hf : findImagePullSecrets m.SecretName pod with
  | true =>
    rw [run_of_find c m pod s hf] at h
    simp only [Prod.mk.injEq] at h
    exact Or.inl ⟨rfl, h.1.2.symm⟩
  | false =>
    cases hm : matchContainerImageDomain m.Domain pod with
    | false =>
      rw [run_of_no_match c m pod s hm] at h
      simp only [Prod.mk.injEq] at h
      exact Or.inr (Or.inl ⟨rfl, rfl, h.1.2.symm⟩)
    | true =>
      refine Or.inr (Or.inr ⟨rfl, rfl, ?_⟩)
      rcases hg : c.Get s { Namespace := pod.Namespace, Name := m.SecretName } with ⟨r, sa⟩
      cases r with
      | ok T =>
        simp [defaultingImagePullSecretes, hf, hm, Prog.run, hg, IsNotFound] at h
        exact h.1.symm
      | error e0 =>
        cases hn : IsNotFound (some e0) with
        | false =>
          simp [defaultingImagePullSecretes, hf, hm, Prog.run, hg, hn] at h
        | true =>
          rcases hg2 : c.Get sa { Namespace := m.SecretNamespace, Name := m.SecretName }
            with ⟨r2, sb⟩
          cases r2 with
          | error e2 =>
            simp [defaultingImagePullSecretes, hf, hm, Prog.run, hg, hn, hg2] at h
          | ok S =>
            rcases hcr : c.Create sb { S with ResourceVersion := "", Namespace := pod.Namespace }
              with ⟨ce, sc⟩
            cases ce with
            | some e3 =>
              simp [defaultingImagePullSecretes, hf, hm, Prog.run, hg, hn, hg2, hcr] at h
            | none =>
              simp [defaultingImagePullSecretes, hf, hm, Prog.run, hg, hn, hg2, hcr] at h
              exact h.1.symm

theorem countP_append_fresh (n : String) (l : List LocalObjectReference)
    (h : ∀ r ∈ l, r.Name ≠ n) :
    List.countP (fun r => decide (r.Name = n)) (l ++ [({ Name := n } : LocalObjectReference)])
      = 1 := by
  have h0 : l.countP (fun r => decide (r.Name = n)) = 0 := by
    rw [List.countP_eq_zero]
    intro r hr
    simpa using h r hr
  simp [List.countP_append, h0]

/-- Claim C4 (idempotence). If a call of the method succeeds, a second call on the resulting Pod,
against the store as the first call left it, returns nil, makes no store call and leaves the
Pod unchanged; and when the Pod at first lacks the secret name and has a container of the
configured domain, its list then contains the secret name exactly once. -/
theorem C4_idempotent {σ : Type} (c : Client σ) (m : PodMutator) (pod pod1 : Pod)
    (s s1 : σ) (calls : List Call)
    (h : (defaultingImagePullSecretes m pod).run c s = ((none, pod1), s1, calls)) :
    (defaultingImagePullSecretes m pod1).run c s1 = ((none, pod1), s1, []) ∧
    ((∀ r ∈ pod.Spec.ImagePullSecrets, r.Name ≠ m.SecretName) →
      (∃ ct ∈ pod.Spec.Containers, (splitDockerDomain ct.Image).1 = m.Domain) →
      pod1.Spec.ImagePullSecrets.countP (fun r => decide (r.Name = m.SecretName)) = 1) := by
  rcases success_cases c m pod pod1 s s1 calls h with ⟨hf, rfl⟩ | ⟨_, hm, rfl⟩ | ⟨_, _, rfl⟩
  · refine ⟨run_of_find c m _ s1 hf, fun hfind _ => ?_⟩
    rw [find_eq_false _ _ hfind] at hf
    cases hf
  · refine ⟨run_of_no_match c m _ s1 hm, fun _ hmatch => ?_⟩
    rw [match_eq_true _ _ hmatch] at hm
    cases hm
  · exact ⟨run_of_find c m _ s1 (find_append _ _), fun hfind _ =>
      countP_append_fresh _ _ hfind⟩

/-- The Pod of the test suite mutated twice against a store that holds the secret in the
namespace of the Pod. -/
theorem C4_idempotent_witness :
    (defaultingImagePullSecretes testMutator
        { testPod "docker-io-image" "default" "nginx:latest" with
            Spec := { Containers := [{ Name := "nginx", Image := "nginx:latest" }],
                      ImagePullSecrets := [{ Name := "image-pull-secret" }] } }).run
        memClient [testSecret]
      = ((none, { testPod "docker-io-image" "default" "nginx:latest" with
            Spec := { Containers := [{ Name := "nginx", Image := "nginx:latest" }],
                      ImagePullSecrets := [{ Name := "image-pull-secret" }] } }),
         [testSecret], []) ∧
    List.countP (fun r => decide (r.Name = "image-pull-secret"))
      [({ Name := "image-pull-secret" } : LocalObjectReference)] = 1 :=
  ⟨(C4_idempotent memClient testMutator (testPod "docker-io-image" "default" "nginx:latest")
      _ [testSecret] [testSecret] _ rfl).1,
   (C4_idempotent memClient testMutator (testPod "docker-io-image" "default" "nginx:latest")
      _ [testSecret] [testSecret] _ rfl).2 (by decide) (by decide)⟩

/-- Claim C5 (failure atomicity and propagation). The method returns a non-nil error exactly
when the Pod lacks the secret name, has a container of the configured domain, and a store
call fails in one of three ways: the target `Get` fails with an error other than `NotFound`;
the target `Get` reports `NotFound` and the canonical `Get` fails for any reason; or both
went that far and `Create` fails. Each such failure makes the method return the error of the
failing call, that call is the last store call made, and the Pod is the Pod passed in. -/
theorem C5_failure {σ : Type} (c : Client σ) (m : PodMutator) (pod pod1 : Pod)
    (s s1 : σ) (e : Error) (calls : List Call) :
    (defaultingImagePullSecretes m pod).run c s = ((some e, pod1), s1, calls) ↔
    (pod1 = pod ∧
     (∀ r ∈ pod.Spec.ImagePullSecrets, r.Name ≠ m.SecretName) ∧
     (∃ ct ∈ pod.Spec.Containers, (splitDockerDomain ct.Image).1 = m.Domain) ∧
     ((c.Get s { Namespace := pod.Namespace, Name := m.SecretName } = (.error e, s1) ∧
        IsNotFound (some e) = false ∧
        calls = [Call.get { Namespace := pod.Namespace, Name := m.SecretName } (.error e)]) ∨
      (∃ e0 sa,
        c.Get s { Namespace := pod.Namespace, Name := m.SecretName } = (.error e0, sa) ∧
        IsNotFound (some e0) = true ∧
        c.Get sa { Namespace := m.SecretNamespace, Name := m.SecretName } = (.error e, s1) ∧
        calls = [Call.get { Namespace := pod.Namespace, Name := m.SecretName } (.error e0),
                 Call.get { Namespace := m.SecretNamespace, Name := m.SecretName }
                   (.error e)]) ∨
      (∃ e0 sa S sb,
        c.Get s { Namespace := pod.Namespace, Name := m.SecretName } = (.error e0, sa) ∧
        IsNotFound (some e0) = true ∧
        c.Get sa { Namespace := m.SecretNamespace, Name := m.SecretName } = (.ok S, sb) ∧
        c.Create sb { S with ResourceVersion := "", Namespace := pod.Namespace }
          = (some e, s1) ∧
        calls = [Call.get { Namespace := pod.Namespace, Name := m.SecretName } (.error e0),
                 Call.get { Namespace := m.SecretNamespace, Name := m.SecretName } (.ok S),
                 Call.create { S with ResourceVersion := "", Namespace := pod.Namespace }
                   (some e)]))) := by
  constructor
  · intro h
    cases hf : findImagePullSecrets m.SecretName pod with
    | true =>
      rw [run_of_find c m pod s hf] at h
      simp at h
    | false =>
      cases hm : matchContainerImageDomain m.Domain pod with
      | false =>
        rw [run_of_no_match c m pod s hm] at h
        simp at h
      | true =>
        have hfind := find_false_forall _ _ hf
        have hmatch := match_true_exists _ _ hm
        rcases hg : c.Get s { Namespace := pod.Namespace, Name := m.SecretName } with ⟨r, sa⟩
        cases r with
        | ok T =>
          simp [defaultingImagePullSecretes, hf, hm, Prog.run, hg, IsNotFound] at h
        | error e0 =>
          cases hn : IsNotFound (some e0) with
          | false =>
            simp [defaultingImagePullSecretes, hf, hm, Prog.run, hg, hn] at h
            obtain ⟨⟨rfl, rfl⟩, rfl, rfl⟩ := h
            exact ⟨rfl, hfind, hmatch, Or.inl ⟨rfl, hn, rfl⟩⟩
          | true =>
            rcases hg2 : c.Get sa { Namespace := m.SecretNamespace, Name := m.SecretName }
              with ⟨r2, sb⟩
            cases r2 with
            | error e2 =>
              simp [defaultingImagePullSecretes, hf, hm, Prog.run, hg, hn, hg2] at h
              obtain ⟨⟨rfl, rfl⟩, rfl, rfl⟩ := h
              exact ⟨rfl, hfind, hmatch, Or.inr (Or.inl ⟨e0, sa, rfl, hn, hg2, rfl⟩)⟩
            | ok S =>
              rcases hcr : c.Create sb
                { S with ResourceVersion := "", Namespace := pod.Namespace } with ⟨ce, sc⟩
              cases ce with
              | none =>
                simp [defaultingImagePullSecretes, hf, hm, Prog.run, hg, hn, hg2, hcr] at h
              | some e3 =>
                simp [defaultingImagePullSecretes, hf, hm, Prog.run, hg, hn, hg2, hcr] at h
                obtain ⟨⟨rfl, rfl⟩, rfl, rfl⟩ := h
                exact ⟨rfl, hfind, hmatch,
                  Or.inr (Or.inr ⟨e0, sa, S, sb, rfl, hn, hg2, hcr, rfl⟩)⟩
  · rintro ⟨rfl, hfind, hmatch, hcase⟩
    have hf := find_eq_false _ _ hfind
    have hm := match_eq_true _ _ hmatch
    rcases hcase with ⟨hg, hn, rfl⟩ | ⟨e0, sa, hg, hn, hg2, rfl⟩ |
      ⟨e0, sa, S, sb, hg, hn, hg2, hcr, rfl⟩
    · simp [defaultingImagePullSecretes, hf, hm, Prog.run, hg, hn]
    · simp [defaultingImagePullSecretes, hf, hm, Prog.run, hg, hn, hg2]
    · simp [defaultingImagePullSecretes, hf, hm, Prog.run, hg, hn, hg2, hcr]

/-- Each of the three failures on a Pod of the test suite: the target `Get` refused with
`Forbidden`; the canonical secret missing from an empty store; and the `Create` rejected
because a concurrent writer was first. The error of the failing call is returned, that call
ends the store calls and the Pod is as it was. -/
theorem C5_failure_witness :
    (defaultingImagePullSecretes testMutator
        (testPod "docker-io-image" "default" "nginx:latest")).run
        (refusingClient errForbidden) [testSecret]
      = ((some errForbidden, testPod "docker-io-image" "default" "nginx:latest"),
         [testSecret],
         [Call.get { Namespace := "default", Name := "image-pull-secret" }
            (.error errForbidden)]) ∧
    (defaultingImagePullSecretes testMutator
        (testPod "docker-io-image" "default" "nginx:latest")).run memClient []
      = ((some errNotFound, testPod "docker-io-image" "default" "nginx:latest"), [],
         [Call.get { Namespace := "default", Name := "image-pull-secret" } (.error errNotFound),
          Call.get { Namespace := "default", Name := "image-pull-secret" }
            (.error errNotFound)]) ∧
    (defaultingImagePullSecretes testMutator
        (testPod "pod-b" "integration-test" "nginx:latest")).run
        (contendedClient (testCopy "integration-test")) [testSecret]
      = ((some errAlreadyExists, testPod "pod-b" "integration-test" "nginx:latest"),
         [testSecret, storedCopy "integration-test"],
         [Call.get { Namespace := "integration-test", Name := "image-pull-secret" }
            (.error errNotFound),
          Call.get { Namespace := "default", Name := "image-pull-secret" } (.ok testSecret),
          Call.create (testCopy "integration-test") (some errAlreadyExists)]) :=
  ⟨(C5_failure (refusingClient errForbidden) testMutator
      (testPod "docker-io-image" "default" "nginx:latest")
      (testPod "docker-io-image" "default" "nginx:latest") [testSecret] [testSecret]
      errForbidden _).mpr
      ⟨rfl, by decide, by decide, Or.inl ⟨rfl, by decide, rfl⟩⟩,
   (C5_failure memClient testMutator (testPod "docker-io-image" "default" "nginx:latest")
      (testPod "docker-io-image" "default" "nginx:latest") [] [] errNotFound _).mpr
      ⟨rfl, by decide, by decide,
        Or.inr (Or.inl ⟨errNotFound, [], rfl, by decide, rfl, rfl⟩)⟩,
   (C5_failure (contendedClient (testCopy "integration-test")) testMutator
      (testPod "pod-b" "integration-test" "nginx:latest")
      (testPod "pod-b" "integration-test" "nginx:latest") [testSecret]
      [testSecret, storedCopy "integration-test"] errAlreadyExists _).mpr
      ⟨rfl, by decide, by decide,
        Or.inr (Or.inr ⟨errNotFound, [testSecret, storedCopy "integration-test"], testSecret,
          [testSecret, storedCopy "integration-test"], rfl, by decide, rfl, rfl, rfl⟩)⟩⟩

/-- Claim C6, as amended (creation race). For a matching Pod, if the target `Get` reports
`NotFound`, the canonical `Get` succeeds and `Create` is rejected by the store with an
`AlreadyExists` error, the method returns that `AlreadyExists` error, makes no further store
call, and leaves the Pod unchanged: the Pod does not gain the reference. -/
theorem C6_create_conflict_surfaces {σ : Type} (c : Client σ) (m : PodMutator) (pod : Pod)
    (s s1 s2 s3 : σ) (e0 e : Error) (S : Secret)
    (hfind : ∀ r ∈ pod.Spec.ImagePullSecrets, r.Name ≠ m.SecretName)
    (hmatch : ∃ ct ∈ pod.Spec.Containers, (splitDockerDomain ct.Image).1 = m.Domain)
    (hget1 : c.Get s { Namespace := pod.Namespace, Name := m.SecretName } = (.error e0, s1))
    (hnf : IsNotFound (some e0) = true)
    (hget2 : c.Get s1 { Namespace := m.SecretNamespace, Name := m.SecretName } = (.ok S, s2))
    (hcreate : c.Create s2 { S with ResourceVersion := "", Namespace := pod.Namespace }
      = (some e, s3))
    (hexists : IsAlreadyExists (some e) = true) :
    (defaultingImagePullSecretes m pod).run c s
      = ((some e, pod), s3,
         [Call.get { Namespace := pod.Namespace, Name := m.SecretName } (.error e0),
          Call.get { Namespace := m.SecretNamespace, Name := m.SecretName } (.ok S),
          Call.create { S with ResourceVersion := "", Namespace := pod.Namespace } (some e)]) ∧
    IsAlreadyExists ((defaultingImagePullSecretes m pod).run c s).1.1 = true ∧
    findImagePullSecrets m.SecretName ((defaultingImagePullSecretes m pod).run c s).1.2
      = false := by
  have hf := find_eq_false _ _ hfind
  have hm := match_eq_true _ _ hmatch
  have hrun : (defaultingImagePullSecretes m pod).run c s
      = ((some e, pod), s3,
         [Call.get { Namespace := pod.Namespace, Name := m.SecretName } (.error e0),
          Call.get { Namespace := m.SecretNamespace, Name := m.SecretName } (.ok S),
          Call.create { S with ResourceVersion := "", Namespace := pod.Namespace }
            (some e)]) := by
    simp [defaultingImagePullSecretes, hf, hm, Prog.run, hget1, hnf, hget2, hcreate]
  rw [hrun]
  exact ⟨rfl, hexists, hf⟩

/-- A Pod of namespace `integration-test` against the store with a concurrent writer that
creates the same copy of the secret in that namespace. -/
theorem C6_create_conflict_witness :
    (defaultingImagePullSecretes testMutator
        (testPod "pod-b" "integration-test" "nginx:latest")).run
        (contendedClient (testCopy "integration-test")) [testSecret]
      = ((some errAlreadyExists, testPod "pod-b" "integration-test" "nginx:latest"),
         [testSecret, storedCopy "integration-test"],
         [Call.get { Namespace := "integration-test", Name := "image-pull-secret" }
            (.error errNotFound),
          Call.get { Namespace := "default", Name := "image-pull-secret" } (.ok testSecret),
          Call.create (testCopy "integration-test") (some errAlreadyExists)]) :=
  (C6_create_conflict_surfaces (contendedClient (testCopy "integration-test")) testMutator
    (testPod "pod-b" "integration-test" "nginx:latest")
    [testSecret]
    [testSecret, storedCopy "integration-test"]
    [testSecret, storedCopy "integration-test"]
    [testSecret, storedCopy "integration-test"]
    errNotFound errAlreadyExists testSecret
    (by decide) (by decide) rfl (by decide) rfl rfl (by decide)).1

/-- Claim C6 as stated fails. Two calls of the method race for two Pods of the new namespace
`integration-test`, their store calls alternating: both target `Get`s report `NotFound`, both
canonical `Get`s succeed, the `Create` of the first call succeeds and the `Create` of the
second is rejected with `AlreadyExists`. The second call returns that error and its Pod does
not gain the reference; the first call succeeds and the store holds one target secret. -/
theorem C6_race_counterexample :
    (race memClient [true, false, true, false, true, false]
        (defaultingImagePullSecretes testMutator
          (testPod "pod-a" "integration-test" "nginx:latest"))
        (defaultingImagePullSecretes testMutator
          (testPod "pod-b" "integration-test" "nginx:latest"))
        [testSecret]).2.2.2
      = [(true, Call.get { Namespace := "integration-test", Name := "image-pull-secret" }
            (.error errNotFound)),
         (false, Call.get { Namespace := "integration-test", Name := "image-pull-secret" }
            (.error errNotFound)),
         (true, Call.get { Namespace := "default", Name := "image-pull-secret" }
            (.ok testSecret)),
         (false, Call.get { Namespace := "default", Name := "image-pull-secret" }
            (.ok testSecret)),
         (true, Call.create (testCopy "integration-test") none),
         (false, Call.create (testCopy "integration-test") (some errAlreadyExists))] ∧
    (race memClient [true, false, true, false, true, false]
        (defaultingImagePullSecretes testMutator
          (testPod "pod-a" "integration-test" "nginx:latest"))
        (defaultingImagePullSecretes testMutator
          (testPod "pod-b" "integration-test" "nginx:latest"))
        [testSecret]).2.1.result?
      = some (some errAlreadyExists, testPod "pod-b" "integration-test" "nginx:latest") ∧
    (testPod "pod-b" "integration-test" "nginx:latest").Spec.ImagePullSecrets = [] ∧
    (race memClient [true, false, true, false, true, false]
        (defaultingImagePullSecretes testMutator
          (testPod "pod-a" "integration-test" "nginx:latest"))
        (defaultingImagePullSecretes testMutator
          (testPod "pod-b" "integration-test" "nginx:latest"))
        [testSecret]).1.result?
      = some (none, { testPod "pod-a" "integration-test" "nginx:latest" with
          Spec := { Containers := [{ Name := "nginx", Image := "nginx:latest" }],
                    ImagePullSecrets := [{ Name := "image-pull-secret" }] } }) ∧
    (race memClient [true, false, true, false, true, false]
        (defaultingImagePullSecretes testMutator
          (testPod "pod-a" "integration-test" "nginx:latest"))
        (defaultingImagePullSecretes testMutator
          (testPod "pod-b" "integration-test" "nginx:latest"))
        [testSecret]).2.2.1
      = [testSecret, storedCopy "integration-test"] :=
  ⟨rfl, rfl, rfl, rfl, rfl⟩

end Hook
